import Mathlib

/-!
Verification of the core data operations of the test API server
(`test_api_server.py`): the nested filter engine, the recursive text
search, the paginator, the entity validators, the single-entity CRUD
mutation paths and the batch executor, together with proofs of the
specified properties.

Modelling conventions:
* Python values appearing in the fixture data are modelled by the
  inductive type `Json` (strings, integers, booleans, `None`, lists,
  dicts); dicts are association lists in insertion order.
* Python string primitives are modelled on character lists so that every
  definition evaluates by kernel reduction: `str.lower` is `strLower`,
  `needle in hay` / `hay.find(needle) != -1` is `strContains`,
  `s.split(c)` is `splitOnChar`, `s.strip()` is `pyStrip`.
* Python `str(x)` / `repr(x)` are `pyStr` / `pyRepr`; for strings the
  ASCII-quote form without escape processing is used (the fixture data
  contains no quotes or backslashes).
* The metadata timestamps produced by `datetime.utcnow()` are elided
  from created records: they are wall-clock effects that no verified
  property reads.
* The `while` loop that retries an auto-generated identifier is given
  explicit fuel; a result of `none` models divergence of the loop.
-/

/-- Membership of `needle` as a contiguous sublist of `hay`, the model of
Python substring containment. -/
def listHasSub (needle : List Char) : List Char → Bool
  | [] => needle.isEmpty
  | c :: rest => needle.isPrefixOf (c :: rest) || listHasSub needle rest

/-- Python `needle in hay` for strings. -/
def strContains (hay needle : String) : Bool :=
  listHasSub needle.data hay.data

/-- Python `s.lower()` (character-list form of `String.toLower`). -/
def strLower (s : String) : String :=
  String.mk (s.data.map Char.toLower)

/-- Python `s.split(sep)` for a single-character separator. -/
def splitOnChar (sep : Char) : List Char → List (List Char)
  | [] => [[]]
  | c :: rest =>
    let r := splitOnChar sep rest
    if c == sep then [] :: r
    else
      match r with
      | [] => [[c]]
      | g :: gs => (c :: g) :: gs

/-- Python `key_path.split('.')`. -/
def splitDots (s : String) : List String :=
  (splitOnChar (Char.ofNat 46) s.data).map (fun cs => String.mk cs)

/-- Python `s.startswith(pre)`. -/
def strStartsWith (s pre : String) : Bool :=
  pre.data.isPrefixOf s.data

/-- Python `s.strip()`. -/
def pyStrip (s : String) : String :=
  String.mk (((s.data.dropWhile Char.isWhitespace).reverse.dropWhile Char.isWhitespace).reverse)

/-- Model of a Python/JSON value as stored in the fixture collections. -/
inductive Json where
  | str (s : String)
  | int (n : Int)
  | bool (b : Bool)
  | null
  | arr (elems : List Json)
  | obj (fields : List (String × Json))
  deriving Repr

mutual

/-- Boolean equality on `Json` values. -/
def Json.beq : Json → Json → Bool
  | Json.str a, Json.str b => a == b
  | Json.int a, Json.int b => a == b
  | Json.bool a, Json.bool b => a == b
  | Json.null, Json.null => true
  | Json.arr a, Json.arr b => Json.beqList a b
  | Json.obj a, Json.obj b => Json.beqFields a b
  | _, _ => false

/-- Elementwise equality of `Json` lists. -/
def Json.beqList : List Json → List Json → Bool
  | [], [] => true
  | a :: as_, b :: bs => Json.beq a b && Json.beqList as_ bs
  | _, _ => false

/-- Elementwise equality of `Json` field lists. -/
def Json.beqFields : List (String × Json) → List (String × Json) → Bool
  | [], [] => true
  | (ka, va) :: as_, (kb, vb) :: bs => ka == kb && Json.beq va vb && Json.beqFields as_ bs
  | _, _ => false

end

instance : BEq Json := ⟨Json.beq⟩

/-- A Python dict record: an association list of string keys to values. -/
abbrev Record := List (String × Json)

/-- Lookup of a key in a record, the model of `key in item` plus `item[key]`. -/
def dictGet? (r : Record) (k : String) : Option Json :=
  (r.find? (fun p => p.1 == k)).map Prod.snd

/-- Python `item.get(key)` (default `None`). -/
def pyGet (r : Record) (k : String) : Json :=
  (dictGet? r k).getD Json.null

/-- Python `key in item`. -/
def hasKey (r : Record) (k : String) : Bool :=
  (dictGet? r k).isSome

/-- Python `item.get(key, fallback)`. -/
def pyGetD (r : Record) (k : String) (fallback : Json) : Json :=
  (dictGet? r k).getD fallback

/-- Python truthiness of a value, the model of `if value:`. -/
def pyTruthy : Json → Bool
  | Json.str s => !(s == "")
  | Json.int n => !(n == 0)
  | Json.bool b => b
  | Json.null => false
  | Json.arr xs => !xs.isEmpty
  | Json.obj fs => !fs.isEmpty

mutual

/-- Python `repr(x)`; strings are wrapped in ASCII quotes (fixture strings
contain no quotes or backslashes, so no escape processing is modelled). -/
def pyRepr : Json → String
  | Json.str s => "\x27" ++ s ++ "\x27"
  | Json.int n => toString n
  | Json.bool b => if b then "True" else "False"
  | Json.null => "None"
  | Json.arr xs => "[" ++ pyReprList xs ++ "]"
  | Json.obj fs => "\x7b" ++ pyReprFields fs ++ "\x7d"

/-- Comma-separated `repr`s of list elements. -/
def pyReprList : List Json → String
  | [] => ""
  | [x] => pyRepr x
  | x :: y :: rest => pyRepr x ++ ", " ++ pyReprList (y :: rest)

/-- Comma-separated `repr`s of dict entries. -/
def pyReprFields : List (String × Json) → String
  | [] => ""
  | [(k, v)] => "\x27" ++ k ++ "\x27: " ++ pyRepr v
  | (k, v) :: f :: rest => "\x27" ++ k ++ "\x27: " ++ pyRepr v ++ ", " ++ pyReprFields (f :: rest)

end

/-- Python `str(x)`: identical to `repr(x)` except on strings. -/
def pyStr : Json → String
  | Json.str s => s
  | j => pyRepr j

/-- The string value of a `Json` known to be a string (used only under
validator guards that already established `isinstance(x, str)`). -/
def asStr : Json → String
  | Json.str s => s
  | _ => ""

/-- The field list of a `Json` known to be a dict (used only under guards
that already established `isinstance(x, dict)`). -/
def asObj : Json → Record
  | Json.obj fs => fs
  | _ => []

/-- The element list of a `Json` known to be a list. -/
def asArr : Json → List Json
  | Json.arr xs => xs
  | _ => []

/-! ## Field Accessor and Nested Filter Engine (`filter_data`, `_get_nested_value`,
`_get_field_value` of `test_api_server.py`) -/

/-- The Field Accessor: the path-walking loop of `_get_nested_value`.
At each step the current value must be a dict containing the next key,
otherwise the lookup fails with `none`. -/
def fieldAccess : Json → List String → Option Json
  | j, [] => some j
  | Json.obj fs, k :: rest =>
    match dictGet? fs k with
    | some v => fieldAccess v rest
    | none => none
  | _, _ :: _ => none

/-- `_get_nested_value item key_path search_value`: resolve the dotted path
against the record and test the stringified leaf for the stringified search
value, case-insensitively; resolution failure means no match. -/
def getNestedValue (item : Record) (key_path : String) (search_value : Json) : Bool :=
  match fieldAccess (Json.obj item) (splitDots key_path) with
  | some v => strContains (strLower (pyStr v)) (strLower (pyStr search_value))
  | none => false

/-- `_get_field_value item key`: the stringified direct field, with
fallback `str('') = ""` for a missing key. -/
def getFieldValue (item : Record) (key : String) : String :=
  pyStr (pyGetD item key (Json.str ""))

/-- The per-key test of the loop body of `filter_data`: dotted keys go
through `_get_nested_value`, plain keys through `_get_field_value` and a
case-insensitive substring test. -/
def filterMatch (item : Record) (key : String) (value : Json) : Bool :=
  if key.data.contains (Char.ofNat 46) then
    getNestedValue item key value
  else
    strContains (strLower (getFieldValue item key)) (strLower (pyStr value))

/-- `filter_data data filters`: successively restrict the collection by
each filter key, as the source loop does. -/
def filter_data (data : List Record) (filters : List (String × Json)) : List Record :=
  filters.foldl (fun filtered kv => filtered.filter (fun item => filterMatch item kv.1 kv.2)) data

/-! ## Recursive Text Search (`search_in_text`, `_item_matches_query`) -/

mutual

/-- `_item_matches_query item query_lower`: on a dict, test every
string-valued field directly and recurse into dict- or list-valued fields;
on a list, recurse into every element; on a string, test directly; any
other scalar never matches. `q` is the already-lowercased query. -/
def item_matches_query : Json → String → Bool
  | Json.obj fields, q => anyFieldMatches fields q
  | Json.arr elems, q => anyElemMatches elems q
  | Json.str s, q => strContains (strLower s) q
  | _, _ => false

/-- The dict-field loop of `_item_matches_query`. -/
def anyFieldMatches : List (String × Json) → String → Bool
  | [], _ => false
  | (_, v) :: rest, q =>
    (match v with
     | Json.str s => strContains (strLower s) q
     | Json.obj fs => item_matches_query (Json.obj fs) q
     | Json.arr xs => item_matches_query (Json.arr xs) q
     | _ => false) || anyFieldMatches rest q

/-- The list-element loop of `_item_matches_query`. -/
def anyElemMatches : List Json → String → Bool
  | [], _ => false
  | x :: rest, q => item_matches_query x q || anyElemMatches rest q

end

/-- `search_in_text data query`: an empty query returns the input
unchanged; otherwise keep the items matching the lowercased query. -/
def search_in_text (data : List Json) (query : String) : List Json :=
  if query = "" then data
  else data.filter (fun item => item_matches_query item (strLower query))

/-! ## Paginator (`paginate_data`) -/

/-- The page descriptor returned by `paginate_data`. -/
structure PageResult (α : Type) where
  items : List α
  total : Nat
  page : Nat
  per_page : Nat
  total_pages : Nat
  deriving Repr, DecidableEq

/-- `paginate_data data page per_page`: the slice
`data[(page-1)*per_page : page*per_page]` plus metadata. Arguments are
`Nat`, matching the nonnegative domain of the specified properties. -/
def paginate_data {α : Type} (data : List α) (page : Nat) (per_page : Nat) : PageResult α :=
  let start_idx := (page - 1) * per_page
  { items := (data.drop start_idx).take per_page
    total := data.length
    page := page
    per_page := per_page
    total_pages := (data.length + per_page - 1) / per_page }

/-! ## Entity validators (`validate_organization_data`, `validate_user_data`,
`check_duplicate_id`) -/

/-- An organization record. Every reachable organization has string
`id`/`name`/`type` fields (creation validates them), so a concrete
structure is faithful; the wall-clock `metadata` timestamps are elided. -/
structure Org where
  id : String
  name : String
  type : String
  deriving Repr, DecidableEq

/-- The `valid_types` enumeration of `validate_organization_data`. -/
def valid_org_types : List String := ["test", "enterprise", "startup", "nonprofit", "government"]

/-- `re.match(r'^ORG\d\x7b3,\x7d$', s)`: `ORG` followed by at least three
digits and nothing else. -/
def isOrgIdFormat (s : String) : Bool :=
  strStartsWith s "ORG" && (let rest := s.data.drop 3; 3 ≤ rest.length && rest.all Char.isDigit)

/-- `re.match(r'^USER\d\x7b3,\x7d', s)` (no end anchor): `USER` followed by
at least three digits. -/
def isUserIdFormat (s : String) : Bool :=
  strStartsWith s "USER" && (let rest := s.data.drop 4; 3 ≤ rest.length && (rest.take 3).all Char.isDigit)

/-- `isinstance(x, str) and len(x.strip()) > 0`. -/
def isNonEmptyStr : Json → Bool
  | Json.str s => !(pyStrip s == "")
  | _ => false

/-- `isinstance(x, str) and p(x)` for a string predicate `p`. -/
def isStrWith (p : String → Bool) : Json → Bool
  | Json.str s => p s
  | _ => false

/-- `validate_organization_data data is_update`: `none` models
`(True, None)`, `some msg` models `(False, msg)`. Checks appear in source
order (fail-fast). -/
def validate_organization_data (data : Record) (is_update : Bool) : Option String :=
  if !is_update && !pyTruthy (pyGet data "name") then
    some "Field \x27name\x27 is required and cannot be empty"
  else if !is_update && !pyTruthy (pyGet data "type") then
    some "Field \x27type\x27 is required and cannot be empty"
  else if hasKey data "name" && !isNonEmptyStr (pyGet data "name") then
    some "Field \x27name\x27 must be a non-empty string"
  else if hasKey data "name" && 100 < (asStr (pyGet data "name")).length then
    some "Field \x27name\x27 must be 100 characters or less"
  else if hasKey data "type" && !isStrWith (fun s => valid_org_types.contains s) (pyGet data "type") then
    some ("Field \x27type\x27 must be one of: " ++ String.intercalate ", " valid_org_types)
  else if hasKey data "id" && !isStrWith isOrgIdFormat (pyGet data "id") then
    some "Field \x27id\x27 must follow format \x27ORG###\x27 (e.g., \x27ORG001\x27, \x27ORG123\x27)"
  else none

/-- Characters of the local part of the email pattern, `[a-zA-Z0-9._%+-]`. -/
def isEmailLocalChar (c : Char) : Bool :=
  c.isAlphanum || c == Char.ofNat 46 || c == Char.ofNat 95 || c == Char.ofNat 37 || c == Char.ofNat 43 || c == Char.ofNat 45

/-- Characters of the domain part of the email pattern, `[a-zA-Z0-9.-]`. -/
def isEmailDomainChar (c : Char) : Bool :=
  c.isAlphanum || c == Char.ofNat 46 || c == Char.ofNat 45

/-- Split a character list at its last dot, returning the parts before and
after it. -/
def splitLastDot : List Char → Option (List Char × List Char)
  | [] => none
  | c :: rest =>
    match splitLastDot rest with
    | some (pre, tld) => some (c :: pre, tld)
    | none => if c == Char.ofNat 46 then some ([], rest) else none

/-- `re.match(r'^[a-zA-Z0-9._%+-]+@[a-zA-Z0-9.-]+\.[a-zA-Z]\x7b2,\x7d$', s)`.
Since no character class admits `@`, the string must have exactly one `@`;
since the top-level domain admits no dot, only the last dot of the domain
can separate it, so the backtracking regex reduces to this split. -/
def emailValid (s : String) : Bool :=
  match splitOnChar (Char.ofNat 64) s.data with
  | [localPart, domain] =>
    !localPart.isEmpty && localPart.all isEmailLocalChar &&
    (match splitLastDot domain with
     | some (pre, tld) =>
       !pre.isEmpty && pre.all isEmailDomainChar && 2 ≤ tld.length && tld.all Char.isAlpha
     | none => false)
  | _ => false

/-- `user["id"] != exclude_user_id`: comparison against `None` is always
true. -/
def neqExclude (idVal : Json) (exclude : Option String) : Bool :=
  match exclude with
  | none => true
  | some e => !(idVal == Json.str e)

/-- `str.capitalize`. -/
def pyCapitalize (s : String) : String :=
  match s.data with
  | [] => ""
  | c :: rest => String.mk (c.toUpper :: rest.map Char.toLower)

/-- `check_duplicate_id entity_type entity_id exclude_id`, specialised by
the identifier list of the entity's collection. -/
def check_duplicate_id (entity_type : String) (ids : List String) (entity_id : String)
    (exclude : Option String) : Option String :=
  if ids.any (fun i => i == entity_id && neqExclude (Json.str i) exclude) then
    some (pyCapitalize entity_type ++ " with ID \x27" ++ entity_id ++ "\x27 already exists")
  else none

/-- `validate_user_data data is_update exclude_user_id`, scanning the live
user and organization collections for the uniqueness and reference checks. -/
def validate_user_data (users : List Record) (orgs : List Org) (data : Record)
    (is_update : Bool) (exclude_user_id : Option String) : Option String :=
  if !is_update && !pyTruthy (pyGet data "name") then
    some "Field \x27name\x27 is required and cannot be empty"
  else if !is_update && !pyTruthy (pyGet data "email") then
    some "Field \x27email\x27 is required and cannot be empty"
  else if hasKey data "name" && !isNonEmptyStr (pyGet data "name") then
    some "Field \x27name\x27 must be a non-empty string"
  else if hasKey data "name" && 100 < (asStr (pyGet data "name")).length then
    some "Field \x27name\x27 must be 100 characters or less"
  else if hasKey data "email" && !isStrWith emailValid (pyGet data "email") then
    some "Field \x27email\x27 must be a valid email address"
  else if hasKey data "email" &&
      users.any (fun u => pyGet u "email" == pyGet data "email" && neqExclude (pyGet u "id") exclude_user_id) then
    some ("Email \x27" ++ asStr (pyGet data "email") ++ "\x27 is already in use by another user")
  else if hasKey data "organization_id" && pyTruthy (pyGet data "organization_id") &&
      !(orgs.any (fun o => Json.str o.id == pyGet data "organization_id")) then
    some ("Organization with ID \x27" ++ pyStr (pyGet data "organization_id") ++ "\x27 does not exist")
  else if hasKey data "id" && !isStrWith isUserIdFormat (pyGet data "id") then
    some "Field \x27id\x27 must follow format \x27USER###\x27 (e.g., \x27USER001\x27, \x27USER123\x27)"
  else none

/-! ## Identifier auto-generation (the `while` retry loops of
`handle_organizations`, `handle_users`, `handle_profiles`) -/

/-- Python `f"\x7bn:03d\x7d"` for a natural number. -/
def fmt03 (n : Nat) : String :=
  if n < 10 then "00" ++ toString n
  else if n < 100 then "0" ++ toString n
  else toString n

/-- The retry loop `while any(id == cand): cand = cand2`, with explicit
fuel; `none` models divergence (the source loop re-assigns the same
constant candidate on every iteration). -/
def gen_id_loop (ids : List String) (cand2 : String) : String → Nat → Option String
  | cand, 0 => if ids.contains cand then none else some cand
  | cand, fuel + 1 => if ids.contains cand then gen_id_loop ids cand2 cand2 fuel else some cand

/-- Auto-generation of an organization id:
`ORG{len+1:03d}`, retried with the constant `ORG{len+2:03d}`. -/
def auto_org_id (orgs : List Org) (fuel : Nat) : Option String :=
  gen_id_loop (orgs.map Org.id) ("ORG" ++ fmt03 (orgs.length + 2)) ("ORG" ++ fmt03 (orgs.length + 1)) fuel

/-- Auto-generation of a user id, over the live user records. -/
def auto_user_id (users : List Record) (fuel : Nat) : Option String :=
  gen_id_loop (users.map (fun u => asStr (pyGet u "id")))
    ("USER" ++ fmt03 (users.length + 2)) ("USER" ++ fmt03 (users.length + 1)) fuel

/-! ## Sample data (`create_sample_data`, `create_nested_profile`) -/

/-- The constant `metadata` sub-object of the generated fixtures. -/
def fixtureMeta : Json :=
  Json.obj [("created_at", Json.str "2024-01-01T00:00:00Z"),
            ("updated_at", Json.str "2024-01-01T00:00:00Z"),
            ("version", Json.str "1.0.0")]

/-- `create_nested_profile level`: the recursive nested-profile fixture.
The source recurses on `level - 1` and bottoms out at `level == 1`
(called only with `level = 10`; it would diverge below 1, modelled here by
`Json.null` at 0, an unreachable argument). -/
def create_nested_profile : Nat → Json
  | 0 => Json.null
  | 1 => Json.obj [("data", Json.str "Level 1 data"), ("metadata", fixtureMeta)]
  | Nat.succ (Nat.succ l) =>
    Json.obj [("level" ++ toString (l + 2), create_nested_profile (l + 1)),
              ("metadata", fixtureMeta)]

/-- The ten generated sample organizations `ORG001` … `ORG010`. -/
def sample_organizations : List Org :=
  (List.range 10).map (fun i =>
    { id := "ORG" ++ fmt03 (i + 1), name := "Test Organization " ++ toString (i + 1), type := "test" })

/-! ## Organization mutation paths (`handle_organizations` POST,
`handle_organization` DELETE) -/

/-- The POST branch of `handle_organizations`: validate, resolve the
identifier (client-supplied after a duplicate check, or auto-generated by
the retry loop), and append the new record. `none` models divergence of
the retry loop; otherwise the created organization and the new collection
are returned, or the error message of the failed check. -/
def create_organization (orgs : List Org) (data : Record) (fuel : Nat) :
    Option (Except String (Org × List Org)) :=
  if data.isEmpty then some (Except.error "Request body must contain valid JSON")
  else
    match validate_organization_data data false with
    | some msg => some (Except.error msg)
    | none =>
      let provided := pyGet data "id"
      if pyTruthy provided then
        match check_duplicate_id "organization" (orgs.map Org.id) (asStr provided) none with
        | some msg => some (Except.error msg)
        | none =>
          let o : Org := { id := asStr provided, name := asStr (pyGet data "name"), type := asStr (pyGet data "type") }
          some (Except.ok (o, orgs ++ [o]))
      else
        match auto_org_id orgs fuel with
        | none => none
        | some oid =>
          let o : Org := { id := oid, name := asStr (pyGet data "name"), type := asStr (pyGet data "type") }
          some (Except.ok (o, orgs ++ [o]))

/-- The DELETE branch of `handle_organization`: look the organization up by
identifier and remove it from the collection. -/
def delete_organization (orgs : List Org) (org_id : String) : Except String (List Org) :=
  match orgs.find? (fun o => o.id == org_id) with
  | none => Except.error "Organization not found"
  | some o => Except.ok (orgs.erase o)

/-! ## Batch operations (`validate_batch_operations`, `batch_organizations`) -/

/-- `op['action'] in ['create', 'update', 'delete']`. -/
def batchActionOk : Json → Bool
  | Json.str s => ["create", "update", "delete"].contains s
  | _ => false

/-- The per-operation loop of `validate_batch_operations`, carrying the
0-based index `i` and reporting the 1-based index in messages. -/
def check_batch_ops : List Json → Nat → Option String
  | [], _ => none
  | op :: rest, i =>
    match op with
    | Json.obj fields =>
      if !hasKey fields "action" then
        some ("Operation " ++ toString (i + 1) ++ ": field \x27action\x27 is required")
      else if !batchActionOk (pyGet fields "action") then
        some ("Operation " ++ toString (i + 1) ++ ": field \x27action\x27 must be one of: create, update, delete")
      else if !hasKey fields "data" then
        some ("Operation " ++ toString (i + 1) ++ ": field \x27data\x27 is required")
      else
        match pyGet fields "data" with
        | Json.obj _ => check_batch_ops rest (i + 1)
        | _ => some ("Operation " ++ toString (i + 1) ++ ": field \x27data\x27 must be a valid object")
    | _ => some ("Operation " ++ toString (i + 1) ++ ": must be a valid object")

/-- `validate_batch_operations operations`: the structural pre-validation
of a batch payload (array, non-empty, at most 50 items, each with a valid
`action` and a dict `data`). -/
def validate_batch_operations (operations : Json) : Option String :=
  match operations with
  | Json.arr ops =>
    if ops.length == 0 then some "Field \x27operations\x27 cannot be empty"
    else if 50 < ops.length then some "Batch operations limited to 50 items per request"
    else check_batch_ops ops 0
  | _ => some "Field \x27operations\x27 must be an array"

/-- A per-operation outcome of the batch executor:
`\x7b"status": "success", "data": ...\x7d` or
`\x7b"status": "error", "error": ...\x7d`. -/
inductive BatchResult where
  | success (data : Org)
  | failure (error : String)
  deriving Repr, DecidableEq

/-- The executor loop of `batch_organizations`: operations are processed
in list order against the evolving collection; only `create` actions have
a handling branch in the source — any other action falls through the loop
appending nothing. `none` models divergence of the id retry loop. -/
def batch_org_ops (orgs : List Org) : List Json → Nat → Nat → Option (List BatchResult × List Org)
  | [], _, _ => some ([], orgs)
  | op :: rest, i, fuel =>
    if pyGet (asObj op) "action" == Json.str "create" then
      let data := asObj (pyGet (asObj op) "data")
      match validate_organization_data data false with
      | some msg =>
        (batch_org_ops orgs rest (i + 1) fuel).map (fun p =>
          (BatchResult.failure ("Operation " ++ toString (i + 1) ++ ": " ++ msg) :: p.1, p.2))
      | none =>
        let provided := pyGet data "id"
        if pyTruthy provided then
          match check_duplicate_id "organization" (orgs.map Org.id) (asStr provided) none with
          | some msg =>
            (batch_org_ops orgs rest (i + 1) fuel).map (fun p =>
              (BatchResult.failure ("Operation " ++ toString (i + 1) ++ ": " ++ msg) :: p.1, p.2))
          | none =>
            let o : Org := { id := asStr provided, name := asStr (pyGet data "name"), type := asStr (pyGet data "type") }
            (batch_org_ops (orgs ++ [o]) rest (i + 1) fuel).map (fun p =>
              (BatchResult.success o :: p.1, p.2))
        else
          match auto_org_id orgs fuel with
          | none => none
          | some oid =>
            let o : Org := { id := oid, name := asStr (pyGet data "name"), type := asStr (pyGet data "type") }
            (batch_org_ops (orgs ++ [o]) rest (i + 1) fuel).map (fun p =>
              (BatchResult.success o :: p.1, p.2))
    else
      batch_org_ops orgs rest (i + 1) fuel

/-- `batch_organizations`: payload validation, structural pre-validation of
`data.get('operations', [])`, then the executor loop. The whole request is
rejected with the first structural error; otherwise the per-operation
results and the final collection are returned. -/
def batch_organizations (orgs : List Org) (payload : Record) (fuel : Nat) :
    Option (Except String (List BatchResult × List Org)) :=
  if payload.isEmpty then some (Except.error "Request body must contain valid JSON")
  else
    let operations := pyGetD payload "operations" (Json.arr [])
    match validate_batch_operations operations with
    | some msg => some (Except.error msg)
    | none => (batch_org_ops orgs (asArr operations) 0 fuel).map Except.ok

/-! ## User mutation paths (`handle_users` POST, `handle_user` PUT/DELETE) -/

/-- The POST branch of `handle_users`: validate (including the duplicate
email scan), resolve the identifier, and append the new user record.
`profiles_len` is the length of the live profile collection, read for
the generated `profile_id`. -/
def create_user (users : List Record) (orgs : List Org) (profiles_len : Nat)
    (data : Record) (fuel : Nat) : Option (Except String (Record × List Record)) :=
  if data.isEmpty then some (Except.error "Request body must contain valid JSON")
  else
    match validate_user_data users orgs data false none with
    | some msg => some (Except.error msg)
    | none =>
      let provided := pyGet data "id"
      let mk := fun (user_id : String) =>
        let new_user : Record :=
          [("id", Json.str user_id), ("name", pyGet data "name"), ("email", pyGet data "email"),
           ("organization_id", pyGet data "organization_id"),
           ("profile_id", Json.str ("PROF" ++ fmt03 (profiles_len + 1)))]
        Except.ok (new_user, users ++ [new_user])
      if pyTruthy provided then
        match check_duplicate_id "user" (users.map (fun u => asStr (pyGet u "id"))) (asStr provided) none with
        | some msg => some (Except.error msg)
        | none => some (mk (asStr provided))
      else
        match auto_user_id users fuel with
        | none => none
        | some uid => some (mk uid)

/-- Set a key in a record as Python `dict.update` does: overwrite in place
when present, append when absent. -/
def setField (r : Record) (k : String) (v : Json) : Record :=
  if hasKey r k then r.map (fun p => if p.1 == k then (p.1, v) else p)
  else r ++ [(k, v)]

/-- Replace the first occurrence of `a` in a list, the model of mutating
the found object in place. -/
def replaceFirst (l : List Record) (a b : Record) : List Record :=
  match l with
  | [] => []
  | x :: xs => if x == a then b :: xs else x :: replaceFirst xs a b

/-- The PUT branch of `handle_user`: look the user up by identifier and,
with no validation of the payload, overwrite `name`, `email` and
`organization_id` with the payload values, keeping the old value for an
absent key (`data.get(k, user[k])`). -/
def update_user (users : List Record) (user_id : String) (data : Record) :
    Except String (Record × List Record) :=
  match users.find? (fun u => pyGet u "id" == Json.str user_id) with
  | none => Except.error "User not found"
  | some u =>
    let u' := setField (setField (setField u
      "name" (pyGetD data "name" (pyGet u "name")))
      "email" (pyGetD data "email" (pyGet u "email")))
      "organization_id" (pyGetD data "organization_id" (pyGet u "organization_id"))
    Except.ok (u', replaceFirst users u u')

/-- The DELETE branch of `handle_user`: remove the found record. -/
def delete_user (users : List Record) (user_id : String) : Except String (List Record) :=
  match users.find? (fun u => pyGet u "id" == Json.str user_id) with
  | none => Except.error "User not found"
  | some u => Except.ok (users.erase u)

/-! ## Concrete fixtures used by the property evaluations -/

/-- The email values of a user collection, in order. -/
def emailsOf (users : List Record) : List Json :=
  users.map (fun u => pyGet u "email")

/-- Whether a list of values contains a duplicate (negation of pairwise
distinctness). -/
def hasDuplicate : List Json → Bool
  | [] => false
  | x :: xs => xs.contains x || hasDuplicate xs

/-- Creation payload for a first test user. -/
def aliceData : Record :=
  [("name", Json.str "Alice Adams"), ("email", Json.str "alice@example.com")]

/-- Creation payload for a second test user. -/
def bobData : Record :=
  [("name", Json.str "Bob Brown"), ("email", Json.str "bob@example.com")]

/-- The user record the server builds from `aliceData` on an empty store. -/
def aliceUser : Record :=
  [("id", Json.str "USER001"), ("name", Json.str "Alice Adams"),
   ("email", Json.str "alice@example.com"), ("organization_id", Json.null),
   ("profile_id", Json.str "PROF001")]

/-- The user record the server builds from `bobData` after `aliceUser`. -/
def bobUser : Record :=
  [("id", Json.str "USER002"), ("name", Json.str "Bob Brown"),
   ("email", Json.str "bob@example.com"), ("organization_id", Json.null),
   ("profile_id", Json.str "PROF001")]

/-- `bobUser` after the unvalidated PUT that copies Alice's email. -/
def bobUserUpdated : Record :=
  [("id", Json.str "USER002"), ("name", Json.str "Bob Brown"),
   ("email", Json.str "alice@example.com"), ("organization_id", Json.null),
   ("profile_id", Json.str "PROF001")]

/-- A structurally valid create operation for the batch endpoint. -/
def batchCreateOpA : Json :=
  Json.obj [("action", Json.str "create"),
            ("data", Json.obj [("name", Json.str "Batch Org A"), ("type", Json.str "test")])]

/-- A batch operation with a valid `action` but no `data` field. -/
def batchOpMissingData : Json :=
  Json.obj [("action", Json.str "create")]

/-- A second structurally valid create operation for the batch endpoint. -/
def batchCreateOpC : Json :=
  Json.obj [("action", Json.str "create"),
            ("data", Json.obj [("name", Json.str "Batch Org C"), ("type", Json.str "test")])]

/-- A structurally valid batch operation whose action is `update`. -/
def batchUpdateOp : Json :=
  Json.obj [("action", Json.str "update"),
            ("data", Json.obj [("id", Json.str "ORG001"), ("name", Json.str "Renamed Org")])]

/-- Creation payload taking the explicit identifier `ORG003`. -/
def gapAData : Record :=
  [("name", Json.str "Gap A"), ("type", Json.str "test"), ("id", Json.str "ORG003")]

/-- Creation payload taking the explicit identifier `ORG004`. -/
def gapBData : Record :=
  [("name", Json.str "Gap B"), ("type", Json.str "test"), ("id", Json.str "ORG004")]

/-- Creation payload with no identifier, forcing auto-generation. -/
def freshOrgData : Record :=
  [("name", Json.str "Fresh Org"), ("type", Json.str "test")]

/-- The organization created from `gapAData`. -/
def orgGapA : Org := { id := "ORG003", name := "Gap A", type := "test" }

/-- The organization created from `gapBData`. -/
def orgGapB : Org := { id := "ORG004", name := "Gap B", type := "test" }

/-- Sequential deletion of the listed identifiers, short-circuiting on the
first error (each step is the DELETE branch of `handle_organization`). -/
def deleteAll (orgs : List Org) (ids : List String) : Except String (List Org) :=
  ids.foldl (fun st oid =>
    match st with
    | Except.ok os => delete_organization os oid
    | e => e) (Except.ok orgs)

/-! ## Lemmas about the Nested Filter Engine -/

/-- Folding the per-key filters equals one filter by the conjunction of all
key tests. -/
theorem filter_data_eq_filter (data : List Record) (filters : List (String × Json)) :
    filter_data data filters =
      data.filter (fun item => filters.all (fun kv => filterMatch item kv.1 kv.2)) := by
  induction filters generalizing data with
  | nil => simp [filter_data]
  | cons kv rest ih =>
    have h1 : filter_data data (kv :: rest) =
        filter_data (data.filter (fun item => filterMatch item kv.1 kv.2)) rest := rfl
    rw [h1, ih, List.filter_filter]
    refine List.filter_congr ?_
    intro a _
    simp [Bool.and_comm]

/-! ## Lemmas about the Paginator -/

/-- A `take` is the in-order collection of the elements at indices below
the bound. -/
theorem take_eq_range_filterMap {α : Type} (l : List α) (m : Nat) :
    l.take m = (List.range m).filterMap (fun i => l[i]?) := by
  induction l generalizing m with
  | nil => simp
  | cons a t ih =>
    cases m with
    | zero => simp
    | succ k =>
      rw [List.range_succ_eq_map, List.filterMap_cons]
      simp only [List.getElem?_cons_zero, List.take_succ_cons, List.filterMap_map]
      congr 1
      rw [ih k]
      refine List.filterMap_congr ?_
      intro i _
      simp [Function.comp]

/-- Ceiling division step: for a positive count, `(L + s - 1) / s`
increments the quotient of `L - 1`. -/
theorem ceil_div_succ (s L : Nat) (hs : 1 ≤ s) (hL : 1 ≤ L) :
    (L + s - 1) / s = (L - 1) / s + 1 := by
  have h : L + s - 1 = (L - 1) + s := by omega
  rw [h, Nat.add_div_right _ hs]

/-- Concatenating the successive `s`-chunks of a list rebuilds the list;
stated with the chunk count as an explicit induction handle. -/
theorem chunks_join {α : Type} (s : Nat) (hs : 1 ≤ s) :
    ∀ (n : Nat) (data : List α), (data.length + s - 1) / s = n →
      ((List.range n).map (fun k => (data.drop (k * s)).take s)).flatten = data := by
  intro n
  induction n with
  | zero =>
    intro data h
    have hL : data.length = 0 := by
      by_contra hc
      rw [ceil_div_succ s data.length hs (by omega)] at h
      exact Nat.succ_ne_zero _ h
    rw [List.length_eq_zero.mp hL]
    simp
  | succ m ih =>
    intro data h
    have hL : 1 ≤ data.length := by
      by_contra hc
      have h0 : data.length = 0 := by omega
      rw [h0, Nat.div_eq_of_lt (show 0 + s - 1 < s by omega)] at h
      exact Nat.succ_ne_zero m h.symm
    have hrest : ((data.drop s).length + s - 1) / s = m := by
      rw [List.length_drop]
      rcases Nat.lt_or_ge s data.length with hge | hle
      · have h2 : 1 ≤ data.length - s := by omega
        rw [ceil_div_succ s (data.length - s) hs h2]
        rw [ceil_div_succ s data.length hs hL] at h
        have h3 : data.length - 1 = (data.length - s - 1) + s := by omega
        rw [h3, Nat.add_div_right _ hs] at h
        omega
      · have h1 : data.length - s = 0 := by omega
        rw [h1, Nat.div_eq_of_lt (show 0 + s - 1 < s by omega)]
        rw [ceil_div_succ s data.length hs hL,
          Nat.div_eq_of_lt (show data.length - 1 < s by omega)] at h
        omega
    have hchunk : ∀ k, (data.drop ((k + 1) * s)).take s = (((data.drop s).drop (k * s)).take s) := by
      intro k
      rw [List.drop_drop]
      have hk : s + k * s = (k + 1) * s := by ring
      rw [hk]
    rw [List.range_succ_eq_map, List.map_cons, List.map_map, List.flatten_cons]
    have hmap : (List.map ((fun k => (data.drop (k * s)).take s) ∘ Nat.succ) (List.range m)) =
        (List.map (fun k => ((data.drop s).drop (k * s)).take s) (List.range m)) := by
      refine List.map_congr_left ?_
      intro k _
      simp only [Function.comp]
      exact hchunk k
    rw [hmap, ih (data.drop s) hrest]
    simp [List.take_append_drop]

/-! ## Lemmas about the Recursive Text Search -/

/-- The dict-field loop of `_item_matches_query` succeeds exactly when some
field is a matching string or a matching nested dict/list. -/
theorem anyFieldMatches_iff (fields : List (String × Json)) (q : String) :
    anyFieldMatches fields q = true ↔
      ∃ kv ∈ fields,
        (∃ s, kv.2 = Json.str s ∧ strContains (strLower s) q = true) ∨
        (((∃ fs, kv.2 = Json.obj fs) ∨ (∃ xs, kv.2 = Json.arr xs)) ∧
          item_matches_query kv.2 q = true) := by
  induction fields with
  | nil => simp [anyFieldMatches]
  | cons kv rest ih =>
    obtain ⟨k, v⟩ := kv
    cases v <;>
      simp_all [anyFieldMatches, item_matches_query]

/-- The list-element loop of `_item_matches_query` succeeds exactly when
some element matches. -/
theorem anyElemMatches_iff (elems : List Json) (q : String) :
    anyElemMatches elems q = true ↔ ∃ x ∈ elems, item_matches_query x q = true := by
  induction elems with
  | nil => simp [anyElemMatches]
  | cons x rest ih => simp_all [anyElemMatches]

/-- Every nesting level of the profile fixture is a dict. -/
theorem create_nested_profile_isObj (n : Nat) (hn : 1 ≤ n) :
    ∃ fs, create_nested_profile n = Json.obj fs := by
  match n, hn with
  | 1, _ => exact ⟨_, rfl⟩
  | Nat.succ (Nat.succ l), _ => exact ⟨_, rfl⟩

/-- The bottom-level payload string is found at every nesting depth. -/
theorem nested_profile_matches (n : Nat) (hn : 1 ≤ n) :
    item_matches_query (create_nested_profile n) (strLower "Level 1 data") = true := by
  induction n with
  | zero => omega
  | succ m ih =>
    match m, ih with
    | 0, _ => decide
    | Nat.succ l, ih =>
      obtain ⟨fs, hfs⟩ := create_nested_profile_isObj (l + 1) (by omega)
      have hm : item_matches_query (Json.obj fs) (strLower "Level 1 data") = true := by
        rw [← hfs]
        exact ih (by omega)
      show item_matches_query
        (Json.obj [("level" ++ toString (l + 2), create_nested_profile (l + 1)),
                   ("metadata", fixtureMeta)]) (strLower "Level 1 data") = true
      rw [hfs]
      simp only [item_matches_query, anyFieldMatches, Bool.or_eq_true]
      exact Or.inl hm

/-! ## Lemma about the identifier retry loop -/

/-- When the retry candidate itself collides, the loop never exits:
every fuel bound is exhausted. -/
theorem gen_id_loop_stuck (ids : List String) (cand2 : String)
    (h2 : ids.contains cand2 = true) :
    ∀ (fuel : Nat) (cand : String), ids.contains cand = true →
      gen_id_loop ids cand2 cand fuel = none := by
  intro fuel
  induction fuel with
  | zero =>
    intro cand hc
    simp only [gen_id_loop, hc, if_true]
  | succ g ih =>
    intro cand hc
    simp only [gen_id_loop, hc, if_true]
    exact ih cand2 h2

/-! ## Claims -/

/-- C9: for every list of records, `filter_data` with an empty filter
mapping returns the input unchanged and in order, and `search_in_text`
with an empty query also returns the input unchanged and in order. -/
theorem empty_filter_and_empty_query_identity :
    (∀ data : List Record, filter_data data [] = data) ∧
    (∀ data : List Json, search_in_text data "" = data) := by
  constructor
  · intro data; rfl
  · intro data; rfl

/-- C8: the Nested Filter Engine is idempotent — filtering an already
filtered collection by the same filters changes nothing. -/
theorem filter_data_idempotent (data : List Record) (filters : List (String × Json)) :
    filter_data (filter_data data filters) filters = filter_data data filters := by
  rw [filter_data_eq_filter, filter_data_eq_filter, List.filter_filter]
  refine List.filter_congr ?_
  intro a _
  simp

/-- C4: the Nested Filter Engine returns exactly the in-order sublist of
records satisfying all filters (logical AND across keys, order preserved,
input untouched — the engine is a pure function of its input); a dotted
key matches iff the Field Accessor resolves the path to a value whose
stringification contains the filter value case-insensitively, and a
non-dotted key matches iff the stringified direct field (empty string when
missing) contains the filter value case-insensitively. -/
theorem filter_data_spec :
    (∀ (data : List Record) (filters : List (String × Json)),
      filter_data data filters =
        data.filter (fun item => filters.all (fun kv => filterMatch item kv.1 kv.2))) ∧
    (∀ (item : Record) (key : String) (value : Json),
      key.data.contains (Char.ofNat 46) = true →
        (filterMatch item key value = true ↔
          ∃ j, fieldAccess (Json.obj item) (splitDots key) = some j ∧
            strContains (strLower (pyStr j)) (strLower (pyStr value)) = true)) ∧
    (∀ (item : Record) (key : String) (value : Json),
      key.data.contains (Char.ofNat 46) = false →
        filterMatch item key value =
          strContains (strLower (pyStr (pyGetD item key (Json.str ""))))
            (strLower (pyStr value))) := by
  refine ⟨filter_data_eq_filter, ?_, ?_⟩
  · intro item key value hdot
    rw [filterMatch, if_pos hdot, getNestedValue]
    cases hfa : fieldAccess (Json.obj item) (splitDots key) with
    | none => simp
    | some j => simp
  · intro item key value hdot
    rw [filterMatch, if_neg (by rw [hdot]; exact Bool.false_ne_true), getFieldValue]

/-- Witness for C4 at a concrete record and the dotted key
`metadata.version`. -/
theorem filter_data_spec_witness :
    ("metadata.version".data.contains (Char.ofNat 46) = true) ∧
    (filterMatch [("metadata", Json.obj [("version", Json.str "1.0.0")])]
        "metadata.version" (Json.str "1.0") = true ↔
      ∃ j, fieldAccess (Json.obj [("metadata", Json.obj [("version", Json.str "1.0.0")])])
          (splitDots "metadata.version") = some j ∧
        strContains (strLower (pyStr j)) (strLower (pyStr (Json.str "1.0"))) = true) :=
  ⟨by decide, filter_data_spec.2.1 [("metadata", Json.obj [("version", Json.str "1.0.0")])]
    "metadata.version" (Json.str "1.0") (by decide)⟩

/-- C5: for every sequence, page `p ≥ 1` and page size `s ≥ 1`, the
Paginator returns exactly the elements at indices `(p-1)*s, …, p*s - 1`
(in order, empty when the start is at or past the end, never an error),
with `total` the sequence length, `page`/`per_page` echoed, and
`total_pages = ceiling(total / s)` (characterised as the least `k` with
`total ≤ k * s`). -/
theorem paginate_data_spec {α : Type} (data : List α) (p s : Nat)
    (_hp : 1 ≤ p) (hs : 1 ≤ s) :
    (paginate_data data p s).items = (List.range s).filterMap (fun i => data[(p - 1) * s + i]?) ∧
    (data.length ≤ (p - 1) * s → (paginate_data data p s).items = []) ∧
    (paginate_data data p s).total = data.length ∧
    (paginate_data data p s).page = p ∧
    (paginate_data data p s).per_page = s ∧
    data.length ≤ (paginate_data data p s).total_pages * s ∧
    (∀ k : Nat, data.length ≤ k * s → (paginate_data data p s).total_pages ≤ k) := by
  refine ⟨?_, ?_, rfl, rfl, rfl, ?_, ?_⟩
  · show (data.drop ((p - 1) * s)).take s = _
    rw [take_eq_range_filterMap]
    refine List.filterMap_congr ?_
    intro i _
    rw [List.getElem?_drop]
  · intro hlen
    show (data.drop ((p - 1) * s)).take s = []
    rw [List.drop_eq_nil_of_le hlen]
    exact List.take_nil
  · show data.length ≤ (data.length + s - 1) / s * s
    rcases Nat.eq_zero_or_pos data.length with h0 | hpos
    · simp [h0]
    · rw [ceil_div_succ s data.length hs hpos]
      have hdm := Nat.div_add_mod (data.length - 1) s
      have hmod : (data.length - 1) % s < s := Nat.mod_lt _ hs
      rw [Nat.add_mul, Nat.one_mul, Nat.mul_comm]
      omega
  · intro k hk
    show (data.length + s - 1) / s ≤ k
    rcases Nat.eq_zero_or_pos data.length with h0 | hpos
    · rw [h0, Nat.div_eq_of_lt (by omega)]
      exact Nat.zero_le k
    · have hlt : (data.length + s - 1) / s < k + 1 := by
        rw [Nat.div_lt_iff_lt_mul hs, Nat.succ_mul]
        omega
      omega

/-- Witness for C5 at page 2 of size 2 over a five-element sequence. -/
theorem paginate_data_spec_witness :
    (1 ≤ 2) ∧
    (paginate_data [10, 20, 30, 40, 50] 2 2).items =
      (List.range 2).filterMap (fun i => [10, 20, 30, 40, 50][(2 - 1) * 2 + i]?) ∧
    (paginate_data [10, 20, 30, 40, 50] 2 2).total = 5 :=
  ⟨by decide, (paginate_data_spec [10, 20, 30, 40, 50] 2 2 (by decide) (by decide)).1,
    (paginate_data_spec [10, 20, 30, 40, 50] 2 2 (by decide) (by decide)).2.2.1⟩

/-- C6: pagination is a partition — at a fixed page size `s ≥ 1`,
concatenating the item lists of pages `1 … total_pages` rebuilds the
sequence exactly and in order, and every page except possibly the last
has exactly `s` items. -/
theorem paginate_partition {α : Type} (data : List α) (s : Nat) (hs : 1 ≤ s) :
    (((List.range (paginate_data data 1 s).total_pages).map
        (fun k => (paginate_data data (k + 1) s).items)).flatten = data) ∧
    (∀ k : Nat, k + 1 < (paginate_data data 1 s).total_pages →
      ((paginate_data data (k + 1) s).items).length = s) := by
  constructor
  · have hitems : (fun k => (paginate_data data (k + 1) s).items) =
        (fun k => (data.drop (k * s)).take s) := by
      funext k
      show (data.drop ((k + 1 - 1) * s)).take s = _
      rfl
    rw [hitems]
    exact chunks_join s hs ((data.length + s - 1) / s) data rfl
  · intro k hk
    have hk2 : k + 2 ≤ (data.length + s - 1) / s := hk
    have hmul : (k + 2) * s ≤ data.length + s - 1 :=
      (Nat.le_div_iff_mul_le hs).mp hk2
    rw [Nat.add_mul] at hmul
    show ((data.drop ((k + 1 - 1) * s)).take s).length = s
    rw [List.length_take, List.length_drop]
    have hks : (k + 1 - 1) * s = k * s := rfl
    rw [hks]
    omega

/-- Witness for C6 at size 2 over a five-element sequence. -/
theorem paginate_partition_witness :
    (1 ≤ 2) ∧
    ((List.range (paginate_data [10, 20, 30, 40, 50] 1 2).total_pages).map
        (fun k => (paginate_data [10, 20, 30, 40, 50] (k + 1) 2).items)).flatten =
      [10, 20, 30, 40, 50] :=
  ⟨by decide, (paginate_partition [10, 20, 30, 40, 50] 2 (by decide)).1⟩

/-- C7: the Recursive Text Search match predicate follows the traversal
rule — on a dict it succeeds iff some field is a string containing the
query case-insensitively or a dict/list matching recursively; on a list
iff some element matches; on a string it tests directly; on any other
scalar it never matches; and it succeeds at every nesting depth of the
fixture profile (in particular depth 10) without fault. -/
theorem item_matches_query_spec :
    (∀ (fields : List (String × Json)) (q : String),
      item_matches_query (Json.obj fields) q = true ↔
        ∃ kv ∈ fields,
          (∃ s, kv.2 = Json.str s ∧ strContains (strLower s) q = true) ∨
          (((∃ fs, kv.2 = Json.obj fs) ∨ (∃ xs, kv.2 = Json.arr xs)) ∧
            item_matches_query kv.2 q = true)) ∧
    (∀ (elems : List Json) (q : String),
      item_matches_query (Json.arr elems) q = true ↔
        ∃ x ∈ elems, item_matches_query x q = true) ∧
    (∀ (s q : String), item_matches_query (Json.str s) q = strContains (strLower s) q) ∧
    (∀ (n : Int) (q : String), item_matches_query (Json.int n) q = false) ∧
    (∀ (b : Bool) (q : String), item_matches_query (Json.bool b) q = false) ∧
    (∀ q : String, item_matches_query Json.null q = false) ∧
    (∀ n : Nat, 1 ≤ n →
      item_matches_query (create_nested_profile n) (strLower "Level 1 data") = true) := by
  refine ⟨?_, ?_, fun s q => rfl, fun n q => rfl, fun b q => rfl, fun q => rfl,
    nested_profile_matches⟩
  · intro fields q
    rw [item_matches_query]
    exact anyFieldMatches_iff fields q
  · intro elems q
    rw [item_matches_query]
    exact anyElemMatches_iff elems q

/-- Witness for C7 at the ten-level nested profile fixture. -/
theorem item_matches_query_spec_witness :
    (1 ≤ 10) ∧
    item_matches_query (create_nested_profile 10) (strLower "Level 1 data") = true :=
  ⟨by decide, item_matches_query_spec.2.2.2.2.2.2 10 (by decide)⟩

/-- C1 (counterexample to the claim as stated): for the batch of three
operations whose second lacks `data`, the endpoint does not return a
three-entry results list at all — structural pre-validation rejects the
whole request. -/
theorem batch_invalid_op2_claim_false :
    ¬ ∃ (results : List BatchResult) (final : List Org),
        batch_organizations []
          [("operations", Json.arr [batchCreateOpA, batchOpMissingData, batchCreateOpC])] 100 =
          some (Except.ok (results, final)) ∧ results.length = 3 := by
  rintro ⟨rs, fin, heq, -⟩
  have hval : batch_organizations []
      [("operations", Json.arr [batchCreateOpA, batchOpMissingData, batchCreateOpC])] 100 =
      some (Except.error "Operation 2: field \x27data\x27 is required") := rfl
  rw [hval] at heq
  simp at heq

/-- C1 (amended): a batch whose second operation has a valid `action` but
no `data` field is rejected wholesale by structural pre-validation with
the single error naming operation 2, before any operation is processed —
no results list is produced. -/
theorem batch_invalid_op2_rejected (orgs : List Org) (fuel : Nat)
    (op1fields op2fields : Record) (op3 : Json)
    (h1a : hasKey op1fields "action" = true)
    (h1b : batchActionOk (pyGet op1fields "action") = true)
    (h1c : hasKey op1fields "data" = true)
    (h1d : ∃ fs, pyGet op1fields "data" = Json.obj fs)
    (h2a : hasKey op2fields "action" = true)
    (h2b : batchActionOk (pyGet op2fields "action") = true)
    (h2c : hasKey op2fields "data" = false) :
    batch_organizations orgs
      [("operations", Json.arr [Json.obj op1fields, Json.obj op2fields, op3])] fuel =
      some (Except.error "Operation 2: field \x27data\x27 is required") := by
  obtain ⟨fs1, hfs1⟩ := h1d
  have hchk : check_batch_ops [Json.obj op1fields, Json.obj op2fields, op3] 0 =
      some "Operation 2: field \x27data\x27 is required" := by
    simp only [check_batch_ops, h1a, h1b, h1c, hfs1, h2a, h2b, h2c,
      Bool.not_true, Bool.not_false, if_true, if_false, Bool.false_eq_true, ite_false, ite_true]
    rfl
  have hstep : batch_organizations orgs
      [("operations", Json.arr [Json.obj op1fields, Json.obj op2fields, op3])] fuel =
      (match check_batch_ops [Json.obj op1fields, Json.obj op2fields, op3] 0 with
       | some msg => some (Except.error msg)
       | none =>
         (batch_org_ops orgs [Json.obj op1fields, Json.obj op2fields, op3] 0 fuel).map
           Except.ok) := rfl
  rw [hstep, hchk]

/-- Witness for C1 (amended) at concrete operations over the sample
collection. -/
theorem batch_invalid_op2_rejected_witness :
    (hasKey (asObj batchOpMissingData) "data" = false) ∧
    batch_organizations sample_organizations
      [("operations",
        Json.arr [Json.obj (asObj batchCreateOpA), Json.obj (asObj batchOpMissingData),
          batchCreateOpC])] 7 =
      some (Except.error "Operation 2: field \x27data\x27 is required") :=
  ⟨by decide,
    batch_invalid_op2_rejected sample_organizations 7 (asObj batchCreateOpA)
      (asObj batchOpMissingData) batchCreateOpC (by decide) (by decide) (by decide)
      ⟨_, rfl⟩ (by decide) (by decide) (by decide)⟩

/-- C2 (code evaluated at the failing input): creating two users with
distinct emails through the validated create path and then issuing the
unvalidated PUT that copies the first user's email onto the second leaves
the store with a duplicate email — the update path runs no validation, so
email uniqueness is not preserved by every operation. -/
theorem user_update_breaks_email_uniqueness :
    create_user [] [] 0 aliceData 10 = some (Except.ok (aliceUser, [aliceUser])) ∧
    create_user [aliceUser] [] 0 bobData 10 = some (Except.ok (bobUser, [aliceUser, bobUser])) ∧
    hasDuplicate (emailsOf [aliceUser, bobUser]) = false ∧
    update_user [aliceUser, bobUser] "USER002" [("email", Json.str "alice@example.com")] =
      Except.ok (bobUserUpdated, [aliceUser, bobUserUpdated]) ∧
    hasDuplicate (emailsOf [aliceUser, bobUserUpdated]) = true :=
  ⟨rfl, rfl, rfl, rfl, rfl⟩

/-- C3 (code evaluated at the failing input): a structurally valid batch
whose single operation has action `update` passes pre-validation, yet the
executor appends no outcome for it — the results list is empty instead of
having one entry per operation, because only `create` actions have a
handling branch. -/
theorem batch_update_op_yields_no_result :
    validate_batch_operations (Json.arr [batchUpdateOp]) = none ∧
    batch_organizations sample_organizations [("operations", Json.arr [batchUpdateOp])] 100 =
      some (Except.ok ([], sample_organizations)) :=
  ⟨rfl, rfl⟩

/-- When validation passes, no id is supplied, and the retry loop
diverges, the whole create diverges. -/
theorem create_organization_of_auto_none (orgs : List Org) (data : Record) (fuel : Nat)
    (hne : data.isEmpty = false)
    (hval : validate_organization_data data false = none)
    (hid : pyTruthy (pyGet data "id") = false)
    (hauto : auto_org_id orgs fuel = none) :
    create_organization orgs data fuel = none := by
  unfold create_organization
  simp only [hne, hval, hid, hauto, Bool.false_eq_true, if_false, ite_false]

/-- C10 (code evaluated at the failing input): the state holding exactly
`ORG003` and `ORG004` is reachable from the generated fixture by deletes
and explicit-id creates; from it, a create with no client-supplied id
never terminates — the retry loop re-checks the constant candidate
`ORG{len+2}` forever, for every fuel bound. -/
theorem auto_id_retry_loop_diverges :
    deleteAll sample_organizations
      ["ORG001", "ORG002", "ORG003", "ORG004", "ORG005",
       "ORG006", "ORG007", "ORG008", "ORG009", "ORG010"] = Except.ok [] ∧
    create_organization [] gapAData 10 = some (Except.ok (orgGapA, [orgGapA])) ∧
    create_organization [orgGapA] gapBData 10 =
      some (Except.ok (orgGapB, [orgGapA, orgGapB])) ∧
    (∀ fuel : Nat, auto_org_id [orgGapA, orgGapB] fuel = none) ∧
    (∀ fuel : Nat, create_organization [orgGapA, orgGapB] freshOrgData fuel = none) := by
  refine ⟨rfl, rfl, rfl, ?_, ?_⟩
  · intro fuel
    exact gen_id_loop_stuck ["ORG003", "ORG004"] "ORG004" (by decide) fuel "ORG003" (by decide)
  · intro fuel
    exact create_organization_of_auto_none [orgGapA, orgGapB] freshOrgData fuel rfl rfl rfl
      (gen_id_loop_stuck ["ORG003", "ORG004"] "ORG004" (by decide) fuel "ORG003" (by decide))
